import Mathlib

/-!
Verification development for the ElectricityConsumptionAnalysis repository.

The repository has two components:
* `combined_dataset.py` — the Dataset Assembler: walks `{year}/{month}*.csv`
  files, tags each parsed row with `Year` (directory name) and `Month`
  (first two characters of the file name), concatenates the rows and writes
  one combined file, skipping unreadable files with a printed diagnostic.
* `streamlit_analytics.py` — the Aggregation & Reporting Engine: filters the
  combined dataset by year set, month set and day-of-month range, and
  computes sums, means, group sums, extremal records and formatted metric
  strings.

This file shallowly embeds both components.  Machine floats carrying exact
decimal data are modelled as exact rationals (`ℚ`); pandas series become
lists; a pandas/stdlib call that raises an uncaught exception is modelled
as `Option.none`.
-/

/- ===================== Number formatting (streamlit_analytics.py) ========= -/

/-- Floor of a rational number as an integer (`num.fdiv den`, exact). -/
def ratFloor (q : ℚ) : ℤ := q.num.fdiv (q.den : ℤ)

/-- Round-half-even of a rational to an integer; models CPython fixed-point
rounding of `format(x, ".2f")` at inputs whose value is an exact rational. -/
def roundHalfEven (x : ℚ) : ℤ :=
  if x - (ratFloor x : ℚ) < 1/2 then ratFloor x
  else if 1/2 < x - (ratFloor x : ℚ) then ratFloor x + 1
  else if ratFloor x % 2 = 0 then ratFloor x else ratFloor x + 1

/-- Two-digit zero-padded rendering of the fractional part. -/
def padTwo (fp : Nat) : String :=
  if fp < 10 then "0" ++ toString fp else toString fp

/-- Python `f-string` fixed-point rendering with two decimals, nonnegative case. -/
def formatFixed2Nonneg (x : ℚ) : String :=
  toString ((roundHalfEven (x * 100)).toNat / 100) ++ "." ++
    padTwo ((roundHalfEven (x * 100)).toNat % 100)

/-- Python fixed-point rendering with two decimals (the `.2f` format spec). -/
def formatFixed2 (x : ℚ) : String :=
  if x < 0 then "-" ++ formatFixed2Nonneg (-x) else formatFixed2Nonneg x

/-- Insert a comma after every third character of a reversed digit list. -/
def groupRev : List Char → List Char
  | a :: b :: c :: d :: rest => a :: b :: c :: ',' :: groupRev (d :: rest)
  | l => l

/-- Decimal rendering of a natural number with thousands separators. -/
def commaSep (n : Nat) : String :=
  String.mk ((groupRev (toString n).data.reverse).reverse)

/-- Python comma-grouped fixed-point rendering (`,.2f`), nonnegative case. -/
def formatComma2Nonneg (x : ℚ) : String :=
  commaSep ((roundHalfEven (x * 100)).toNat / 100) ++ "." ++
    padTwo ((roundHalfEven (x * 100)).toNat % 100)

/-- Python comma-grouped fixed-point rendering with two decimals (`,.2f`). -/
def formatComma2 (x : ℚ) : String :=
  if x < 0 then "-" ++ formatComma2Nonneg (-x) else formatComma2Nonneg x

/-- `format_number` from `streamlit_analytics.py` lines 9-15: scale to an
`M` suffix at a million, a `K` suffix at a thousand, else plain `.2f`. -/
def format_number (value : ℚ) : String :=
  if value ≥ 1000000 then formatFixed2 (value / 1000000) ++ "M"
  else if value ≥ 1000 then formatFixed2 (value / 1000) ++ "K"
  else formatFixed2 value

/- ===================== Data model and filtering ========================== -/

/-- One row of the combined dataset as loaded by the reporting engine.
`DateTime` is modelled abstractly by an identifier together with its
calendar day-of-month and hour-of-day components (`dt.day`, `dt.hour`). -/
structure Row where
  year : String
  month : String
  dateTime : Nat
  day : Nat
  hour : Nat
  total : ℚ
  rateA : ℚ
  rateB : ℚ
  rateC : ℚ
deriving DecidableEq

/-- A sidebar filter selection: year multiselect, month multiselect and the
inclusive day-of-month slider range. -/
structure FilterSelection where
  years : List String
  months : List String
  dayLo : Nat
  dayHi : Nat
deriving DecidableEq

/-- The row mask of `streamlit_analytics.py` lines 57-61: `Year.isin` and
`Month.isin` and `DateTime.dt.day.between(lo, hi)` (inclusive bounds). -/
def rowPasses (f : FilterSelection) (r : Row) : Bool :=
  decide (r.year ∈ f.years) && decide (r.month ∈ f.months) &&
    (decide (f.dayLo ≤ r.day) && decide (r.day ≤ f.dayHi))

/-- The Filtered Dataset: rows of the data frame passing the mask. -/
def filterData (f : FilterSelection) (data : List Row) : List Row :=
  data.filter (rowPasses f)

/- ===================== Aggregates ======================================== -/

/-- `filtered_data['Total'].sum()` (sum of an empty series is 0). -/
def sumTotal (l : List Row) : ℚ := (l.map Row.total).sum

/-- `filtered_data['Total'].mean()`; `none` models the NaN mean of an empty
series. -/
def meanTotal (l : List Row) : Option ℚ :=
  if l.isEmpty then none else some (sumTotal l / (l.length : ℚ))

/-- Group keys in first-encounter order.  (pandas `groupby` sorts its keys;
every property proved below is invariant under the order of the group keys,
so first-encounter order is used.) -/
def groupKeys {K : Type} [DecidableEq K] (key : Row → K) (l : List Row) : List K :=
  (l.map key).dedup

/-- `groupby(key)['Total'].sum()`: one `(key, group sum)` pair per distinct key. -/
def groupSum {K : Type} [DecidableEq K] (key : Row → K) (l : List Row) :
    List (K × ℚ) :=
  (groupKeys key l).map (fun k => (k, sumTotal (l.filter (fun r => decide (key r = k)))))

/-- `Series.idxmax()`: the key of the first entry attaining the maximal
value; `none` models the `ValueError` raised on an empty series. -/
def idxmax {K : Type} : List (K × ℚ) → Option K
  | [] => none
  | p :: rest => some ((rest.foldl (fun best q => if best.2 < q.2 then q else best) p).1)

/-- `Series.idxmin()`: the key of the first entry attaining the minimal
value; `none` models the `ValueError` raised on an empty series. -/
def idxmin {K : Type} : List (K × ℚ) → Option K
  | [] => none
  | p :: rest => some ((rest.foldl (fun best q => if q.2 < best.2 then q else best) p).1)

/-- `Series.max()` of a list; `none` models the NaN maximum of an empty
series. -/
def seriesMax {α : Type} [LinearOrder α] : List α → Option α
  | [] => none
  | x :: xs => some (xs.foldl max x)

/-- `Series.min()` of a list; `none` models the NaN minimum of an empty
series. -/
def seriesMin {α : Type} [LinearOrder α] : List α → Option α
  | [] => none
  | x :: xs => some (xs.foldl min x)

/-- `filtered_data['Total'].max()` (line 192). -/
def maxTotal (l : List Row) : Option ℚ := seriesMax (l.map Row.total)

/-- `filtered_data[filtered_data['Total'] == max_total]` (lines 193 and 220):
the rows tied for the global maximum `Total`.  With an empty frame the
maximum is NaN and no row compares equal to it, giving an empty selection. -/
def tiedRows (l : List Row) : List Row :=
  match maxTotal l with
  | none => []
  | some m => l.filter (fun r => decide (r.total = m))

/-- `max_total_row['DateTime'].iloc[0]` (line 194); `none` models the
`IndexError` raised on an empty selection. -/
def max_datetime (l : List Row) : Option Nat :=
  ((tiedRows l).map Row.dateTime).head?

/-- `Series.mode()[0]`: the smallest value among those attaining the maximal
multiplicity (pandas returns the modes sorted ascending); `none` models the
`KeyError` raised when the series is empty. -/
def seriesMode (xs : List Nat) : Option Nat :=
  match seriesMax (xs.map fun x => xs.count x) with
  | none => none
  | some c => seriesMin (xs.filter fun x => decide (xs.count x = c))

/-- The hour-of-day series of the rows tied for the maximum `Total`
(`...['DateTime'].dt.hour` on line 220). -/
def tiedHours (l : List Row) : List Nat := (tiedRows l).map Row.hour

/-- `peak_hour_freq` from line 220: mode of hour-of-day over the tied rows. -/
def peak_hour_freq (l : List Row) : Option Nat := seriesMode (tiedHours l)

/- ===================== Displayed metric strings ========================== -/

/-- Line 67: `st.metric("Total Energy (kWh)", f"...")` renders the overall
sum with the comma-grouped `,.2f` format, not with `format_number`. -/
def totalEnergyDisplay (l : List Row) : String := formatComma2 (sumTotal l)

/-- Line 68: the average-per-interval metric rendered via `format_number`;
the mean of an empty frame is NaN, which `format_number` renders as `nan`. -/
def avgEnergyDisplay (l : List Row) : String :=
  match meanTotal l with
  | some m => format_number m
  | none => "nan"

/- ===================== Formatting lemmas ================================= -/

lemma ratFloor_intCast (n : ℤ) : ratFloor (n : ℚ) = n := by
  simp [ratFloor, Rat.num_intCast, Rat.den_intCast]

lemma roundHalfEven_intCast (n : ℤ) : roundHalfEven (n : ℚ) = n := by
  rw [roundHalfEven, ratFloor_intCast, if_pos]
  rw [sub_self]
  norm_num

lemma formatFixed2Nonneg_eval (x : ℚ) (n : ℤ) (h : x * 100 = (n : ℚ)) :
    formatFixed2Nonneg x = toString (n.toNat / 100) ++ "." ++ padTwo (n.toNat % 100) := by
  rw [formatFixed2Nonneg, h, roundHalfEven_intCast]

lemma formatFixed2_eval (x : ℚ) (n : ℤ) (h : x * 100 = (n : ℚ)) (h0 : 0 ≤ x) :
    formatFixed2 x = toString (n.toNat / 100) ++ "." ++ padTwo (n.toNat % 100) := by
  rw [formatFixed2, if_neg (by linarith), formatFixed2Nonneg_eval x n h]

lemma formatFixed2_eval_neg (x : ℚ) (n : ℤ) (h : x * 100 = (n : ℚ)) (h0 : x < 0) :
    formatFixed2 x = "-" ++ (toString ((-n).toNat / 100) ++ "." ++ padTwo ((-n).toNat % 100)) := by
  rw [formatFixed2, if_pos h0, formatFixed2Nonneg_eval (-x) (-n) (by push_cast; linarith)]

lemma formatComma2_eval (x : ℚ) (n : ℤ) (h : x * 100 = (n : ℚ)) (h0 : 0 ≤ x) :
    formatComma2 x = commaSep (n.toNat / 100) ++ "." ++ padTwo (n.toNat % 100) := by
  rw [formatComma2, if_neg (by linarith), formatComma2Nonneg, h, roundHalfEven_intCast]

lemma format_number_at_500 : format_number 500 = "500.00" := by
  rw [format_number, if_neg (by norm_num), if_neg (by norm_num),
    formatFixed2_eval 500 50000 (by norm_num) (by norm_num)]
  decide

lemma format_number_at_5000 : format_number 5000 = "5.00K" := by
  rw [format_number, if_neg (by norm_num), if_pos (by norm_num),
    formatFixed2_eval (5000 / 1000) 500 (by norm_num) (by norm_num)]
  decide

lemma format_number_at_5000000 : format_number 5000000 = "5.00M" := by
  rw [format_number, if_pos (by norm_num),
    formatFixed2_eval (5000000 / 1000000) 500 (by norm_num) (by norm_num)]
  decide

lemma formatComma2_at_5000 : formatComma2 5000 = "5,000.00" := by
  rw [formatComma2_eval 5000 500000 (by norm_num) (by norm_num)]
  decide

/-- C6: the K/M magnitude-formatting thresholds of `format_number`, with the
three reference inputs 500, 5000 and 5000000. -/
theorem format_number_thresholds :
    (∀ v : ℚ, 1000000 ≤ v → format_number v = formatFixed2 (v / 1000000) ++ "M") ∧
    (∀ v : ℚ, 1000 ≤ v → v < 1000000 → format_number v = formatFixed2 (v / 1000) ++ "K") ∧
    (∀ v : ℚ, v < 1000 → format_number v = formatFixed2 v) ∧
    format_number 500 = "500.00" ∧ format_number 5000 = "5.00K" ∧
    format_number 5000000 = "5.00M" := by
  refine ⟨?_, ?_, ?_, format_number_at_500, format_number_at_5000, format_number_at_5000000⟩
  · intro v h
    rw [format_number, if_pos h]
  · intro v h1 h2
    rw [format_number, if_neg (by simp only [ge_iff_le, not_le]; linarith), if_pos h1]
  · intro v h
    rw [format_number, if_neg (by simp only [ge_iff_le, not_le]; linarith),
      if_neg (by simp only [ge_iff_le, not_le]; linarith)]

/-- Witness for C6 at the input 5000. -/
theorem format_number_thresholds_witness :
    (1000 : ℚ) ≤ 5000 ∧ (5000 : ℚ) < 1000000 ∧
      format_number 5000 = formatFixed2 (5000 / 1000) ++ "K" :=
  ⟨by decide, by decide, format_number_thresholds.2.1 5000 (by decide) (by decide)⟩

/-- C10: every value below 1000 — negative values of any magnitude
included — renders plain, with the thresholds compared on the signed value. -/
theorem format_number_below_thousand :
    (∀ v : ℚ, v < 1000 → format_number v = formatFixed2 v) ∧
    format_number (-5000000) = "-5000000.00" ∧
    format_number (-1500) = "-1500.00" := by
  refine ⟨?_, ?_, ?_⟩
  · intro v h
    rw [format_number, if_neg (by simp only [ge_iff_le, not_le]; linarith),
      if_neg (by simp only [ge_iff_le, not_le]; linarith)]
  · rw [format_number, if_neg (by norm_num), if_neg (by norm_num),
      formatFixed2_eval_neg (-5000000) (-500000000) (by norm_num) (by norm_num)]
    decide
  · rw [format_number, if_neg (by norm_num), if_neg (by norm_num),
      formatFixed2_eval_neg (-1500) (-150000) (by norm_num) (by norm_num)]
    decide

/-- Witness for C10 at the input -5000000. -/
theorem format_number_below_thousand_witness :
    (-5000000 : ℚ) < 1000 ∧ format_number (-5000000) = formatFixed2 (-5000000) :=
  ⟨by decide, format_number_below_thousand.1 (-5000000) (by decide)⟩

/- ===================== Filter lemmas ===================================== -/

lemma rowPasses_iff (f : FilterSelection) (r : Row) :
    rowPasses f r = true ↔
      (r.year ∈ f.years ∧ r.month ∈ f.months ∧ f.dayLo ≤ r.day ∧ r.day ≤ f.dayHi) := by
  simp [rowPasses, and_assoc]

/-- Sample rows used to instantiate the theorems below; the second and third
rows tie for the maximal `Total`. -/
def sampleRow : Row := ⟨"2021", "01", 10, 1, 7, 50, 0, 0, 0⟩

def tieSample : List Row :=
  [sampleRow,
   ⟨"2021", "01", 11, 1, 7, 80, 0, 0, 0⟩,
   ⟨"2021", "02", 12, 2, 9, 80, 0, 0, 0⟩]

/-- C2: a row of the dataset lands in the Filtered Dataset exactly when its
year is selected, its month is selected, and its day-of-month lies in the
inclusive slider range. -/
theorem filtered_membership (data : List Row) (f : FilterSelection) (r : Row)
    (_hlo : 1 ≤ f.dayLo) (_hord : f.dayLo ≤ f.dayHi) (_hhi : f.dayHi ≤ 31)
    (hr : r ∈ data) :
    r ∈ filterData f data ↔
      (r.year ∈ f.years ∧ r.month ∈ f.months ∧ f.dayLo ≤ r.day ∧ r.day ≤ f.dayHi) := by
  rw [filterData, List.mem_filter, rowPasses_iff]
  exact and_iff_right hr

/-- Witness for C2 on a concrete dataset and filter selection. -/
theorem filtered_membership_witness :
    (1 ≤ 1 ∧ 1 ≤ 15 ∧ 15 ≤ 31 ∧ sampleRow ∈ tieSample) ∧
      (sampleRow ∈ filterData ⟨["2021"], ["01"], 1, 15⟩ tieSample ↔
        (sampleRow.year ∈ ["2021"] ∧ sampleRow.month ∈ ["01"] ∧
          1 ≤ sampleRow.day ∧ sampleRow.day ≤ 15)) :=
  ⟨⟨by decide, by decide, by decide, by decide⟩,
    filtered_membership tieSample ⟨["2021"], ["01"], 1, 15⟩ sampleRow
      (by decide) (by decide) (by decide) (by decide)⟩

/-- F2 narrows F1 in exactly one of the three filter dimensions. -/
def NarrowsOneDim (f1 f2 : FilterSelection) : Prop :=
  (f2.years ⊆ f1.years ∧ f2.months = f1.months ∧ f2.dayLo = f1.dayLo ∧ f2.dayHi = f1.dayHi) ∨
  (f2.years = f1.years ∧ f2.months ⊆ f1.months ∧ f2.dayLo = f1.dayLo ∧ f2.dayHi = f1.dayHi) ∨
  (f2.years = f1.years ∧ f2.months = f1.months ∧ f1.dayLo ≤ f2.dayLo ∧ f2.dayHi ≤ f1.dayHi)

lemma length_filter_mono {α : Type} (p q : α → Bool)
    (h : ∀ a, p a = true → q a = true) :
    ∀ l : List α, (l.filter p).length ≤ (l.filter q).length := by
  intro l
  induction l with
  | nil => simp
  | cons a t ih =>
    rw [List.filter_cons, List.filter_cons]
    by_cases hp : p a = true
    · rw [if_pos hp, if_pos (h a hp)]
      simpa using ih
    · rw [if_neg hp]
      by_cases hq : q a = true
      · rw [if_pos hq]
        exact le_trans ih (by simp)
      · rw [if_neg hq]
        exact ih

lemma rowPasses_mono {f1 f2 : FilterSelection} (h : NarrowsOneDim f1 f2) :
    ∀ r, rowPasses f2 r = true → rowPasses f1 r = true := by
  intro r hr
  rw [rowPasses_iff] at hr ⊢
  obtain ⟨hy, hm, hd1, hd2⟩ := hr
  rcases h with ⟨h1, h2, h3, h4⟩ | ⟨h1, h2, h3, h4⟩ | ⟨h1, h2, h3, h4⟩
  · exact ⟨h1 hy, h2 ▸ hm, h3 ▸ hd1, h4 ▸ hd2⟩
  · exact ⟨h1 ▸ hy, h2 hm, h3 ▸ hd1, h4 ▸ hd2⟩
  · exact ⟨h1 ▸ hy, h2 ▸ hm, le_trans h3 hd1, le_trans hd2 h4⟩

/-- C5: narrowing any single filter dimension cannot grow the Filtered
Dataset. -/
theorem filter_narrowing_monotone (f1 f2 : FilterSelection)
    (h : NarrowsOneDim f1 f2) (data : List Row) :
    (filterData f2 data).length ≤ (filterData f1 data).length :=
  length_filter_mono (rowPasses f2) (rowPasses f1) (rowPasses_mono h) data

/-- Witness for C5: restricting the year multiselect on the sample data. -/
theorem filter_narrowing_monotone_witness :
    NarrowsOneDim ⟨["2021", "2022"], ["01", "02"], 1, 31⟩ ⟨["2021"], ["01", "02"], 1, 31⟩ ∧
      (filterData ⟨["2021"], ["01", "02"], 1, 31⟩ tieSample).length ≤
        (filterData ⟨["2021", "2022"], ["01", "02"], 1, 31⟩ tieSample).length :=
  have h : NarrowsOneDim ⟨["2021", "2022"], ["01", "02"], 1, 31⟩
      ⟨["2021"], ["01", "02"], 1, 31⟩ := Or.inl ⟨by decide, rfl, rfl, rfl⟩
  ⟨h, filter_narrowing_monotone _ _ h tieSample⟩

/- ===================== Grouping invariance =============================== -/

lemma sum_map_zero {K : Type} (ks : List K) : (ks.map (fun _ => (0 : ℚ))).sum = 0 := by
  induction ks with
  | nil => rfl
  | cons a t ih => simp [ih]

lemma sum_map_add {K : Type} (ks : List K) (f g : K → ℚ) :
    (ks.map (fun k => f k + g k)).sum = (ks.map f).sum + (ks.map g).sum := by
  induction ks with
  | nil => simp
  | cons a t ih => simp [ih]; ring

lemma sum_map_ite_zero {K : Type} [DecidableEq K] (x : K) (c : ℚ) :
    ∀ ks : List K, x ∉ ks → (ks.map (fun k => if x = k then c else 0)).sum = 0 := by
  intro ks
  induction ks with
  | nil => simp
  | cons a t ih =>
    intro hx
    have hxa : ¬ x = a := fun h => hx (h ▸ List.mem_cons_self a t)
    have hxt : x ∉ t := fun h => hx (List.mem_cons_of_mem a h)
    simp [hxa, ih hxt]

lemma sum_map_ite_single {K : Type} [DecidableEq K] (x : K) (c : ℚ) :
    ∀ ks : List K, ks.Nodup → x ∈ ks →
      (ks.map (fun k => if x = k then c else 0)).sum = c := by
  intro ks
  induction ks with
  | nil => intro _ h; exact absurd h (List.not_mem_nil x)
  | cons a t ih =>
    intro hnd hx
    rcases List.mem_cons.mp hx with rfl | hxt
    · have hxt : x ∉ t := (List.nodup_cons.mp hnd).1
      simp [sum_map_ite_zero x c t hxt]
    · have hxa : ¬ x = a := fun h => (List.nodup_cons.mp hnd).1 (h ▸ hxt)
      simp [hxa, ih (List.nodup_cons.mp hnd).2 hxt]

lemma groupSum_partition {K : Type} [DecidableEq K] (key : Row → K) :
    ∀ (l : List Row) (ks : List K), ks.Nodup → (∀ r ∈ l, key r ∈ ks) →
      (ks.map (fun k => sumTotal (l.filter (fun r => decide (key r = k))))).sum =
        sumTotal l := by
  intro l
  induction l with
  | nil =>
    intro ks _ _
    simp only [List.filter_nil]
    rw [show (fun k : K => sumTotal []) = (fun _ : K => (0 : ℚ)) from rfl,
      sum_map_zero]
    rfl
  | cons r t ih =>
    intro ks hnd hcov
    have hsplit : ∀ k : K,
        sumTotal ((r :: t).filter (fun q => decide (key q = k))) =
          (if key r = k then r.total else 0) +
            sumTotal (t.filter (fun q => decide (key q = k))) := by
      intro k
      rw [List.filter_cons]
      by_cases h : key r = k
      · rw [if_pos h, if_pos (by simp [h])]
        simp [sumTotal]
      · rw [if_neg h, if_neg (by simp [h])]
        simp
    calc (ks.map (fun k => sumTotal ((r :: t).filter (fun q => decide (key q = k))))).sum
        = (ks.map (fun k => (if key r = k then r.total else 0) +
            sumTotal (t.filter (fun q => decide (key q = k))))).sum := by
          congr 1
          exact List.map_congr_left (fun k _ => hsplit k)
      _ = (ks.map (fun k => if key r = k then r.total else 0)).sum +
            (ks.map (fun k => sumTotal (t.filter (fun q => decide (key q = k))))).sum :=
          sum_map_add ks _ _
      _ = r.total + sumTotal t := by
          rw [sum_map_ite_single (key r) r.total ks hnd (hcov r (List.mem_cons_self r t)),
            ih ks hnd (fun q hq => hcov q (List.mem_cons_of_mem r hq))]
      _ = sumTotal (r :: t) := by simp [sumTotal]

lemma groupSum_total {K : Type} [DecidableEq K] (key : Row → K) (l : List Row) :
    ((groupSum key l).map Prod.snd).sum = sumTotal l := by
  rw [groupSum, List.map_map]
  have hcomp : (Prod.snd ∘ fun k => (k, sumTotal (l.filter (fun r => decide (key r = k))))) =
      fun k => sumTotal (l.filter (fun r => decide (key r = k))) := rfl
  rw [hcomp]
  exact groupSum_partition key l (groupKeys key l) (List.nodup_dedup _)
    (fun r hr => List.mem_dedup.mpr (List.mem_map_of_mem key hr))

/-- C4: the overall sum of `Total` equals the sum of the per-year group sums
and the sum of the per-(Year, Month) group sums. -/
theorem sum_grouping_invariant (l : List Row) :
    sumTotal l = ((groupSum Row.year l).map Prod.snd).sum ∧
    sumTotal l = ((groupSum (fun r => (r.year, r.month)) l).map Prod.snd).sum :=
  ⟨(groupSum_total Row.year l).symm,
   (groupSum_total (fun r => (r.year, r.month)) l).symm⟩

/- ===================== Extremal-record lemmas ============================ -/

lemma foldl_max_mem {α : Type} [LinearOrder α] :
    ∀ (xs : List α) (a : α), xs.foldl max a = a ∨ xs.foldl max a ∈ xs := by
  intro xs
  induction xs with
  | nil => intro a; exact Or.inl rfl
  | cons x t ih =>
    intro a
    rw [List.foldl_cons]
    rcases ih (max a x) with h | h
    · rcases max_choice a x with hm | hm
      · exact Or.inl (h.trans hm)
      · exact Or.inr (by rw [h, hm]; exact List.mem_cons_self x t)
    · exact Or.inr (List.mem_cons_of_mem x h)

lemma le_foldl_max {α : Type} [LinearOrder α] :
    ∀ (xs : List α) (a : α), a ≤ xs.foldl max a := by
  intro xs
  induction xs with
  | nil => intro a; exact le_refl a
  | cons x t ih =>
    intro a
    rw [List.foldl_cons]
    exact le_trans (le_max_left a x) (ih (max a x))

lemma mem_le_foldl_max {α : Type} [LinearOrder α] :
    ∀ (xs : List α) (a y : α), y ∈ xs → y ≤ xs.foldl max a := by
  intro xs
  induction xs with
  | nil => intro a y h; exact absurd h (List.not_mem_nil y)
  | cons x t ih =>
    intro a y h
    rw [List.foldl_cons]
    rcases List.mem_cons.mp h with rfl | ht
    · exact le_trans (le_max_right a y) (le_foldl_max t (max a y))
    · exact ih (max a x) y ht

lemma seriesMax_mem {α : Type} [LinearOrder α] {xs : List α} {m : α}
    (h : seriesMax xs = some m) : m ∈ xs := by
  cases xs with
  | nil => simp [seriesMax] at h
  | cons x t =>
    have hm : t.foldl max x = m := by simpa [seriesMax] using h
    rcases foldl_max_mem t x with h1 | h1
    · rw [← hm, h1]; exact List.mem_cons_self x t
    · rw [← hm]; exact List.mem_cons_of_mem x h1

lemma seriesMax_ub {α : Type} [LinearOrder α] {xs : List α} {m : α}
    (h : seriesMax xs = some m) : ∀ y ∈ xs, y ≤ m := by
  cases xs with
  | nil => intro y hy; exact absurd hy (List.not_mem_nil y)
  | cons x t =>
    have hm : t.foldl max x = m := by simpa [seriesMax] using h
    intro y hy
    rcases List.mem_cons.mp hy with rfl | ht
    · rw [← hm]; exact le_foldl_max t y
    · rw [← hm]; exact mem_le_foldl_max t x y ht

lemma seriesMax_isSome {α : Type} [LinearOrder α] {xs : List α} (h : xs ≠ []) :
    ∃ m, seriesMax xs = some m := by
  cases xs with
  | nil => exact absurd rfl h
  | cons x t => exact ⟨t.foldl max x, rfl⟩

lemma foldl_min_mem {α : Type} [LinearOrder α] :
    ∀ (xs : List α) (a : α), xs.foldl min a = a ∨ xs.foldl min a ∈ xs := by
  intro xs
  induction xs with
  | nil => intro a; exact Or.inl rfl
  | cons x t ih =>
    intro a
    rw [List.foldl_cons]
    rcases ih (min a x) with h | h
    · rcases min_choice a x with hm | hm
      · exact Or.inl (h.trans hm)
      · exact Or.inr (by rw [h, hm]; exact List.mem_cons_self x t)
    · exact Or.inr (List.mem_cons_of_mem x h)

lemma foldl_min_le {α : Type} [LinearOrder α] :
    ∀ (xs : List α) (a : α), xs.foldl min a ≤ a := by
  intro xs
  induction xs with
  | nil => intro a; exact le_refl a
  | cons x t ih =>
    intro a
    rw [List.foldl_cons]
    exact le_trans (ih (min a x)) (min_le_left a x)

lemma foldl_min_le_mem {α : Type} [LinearOrder α] :
    ∀ (xs : List α) (a y : α), y ∈ xs → xs.foldl min a ≤ y := by
  intro xs
  induction xs with
  | nil => intro a y h; exact absurd h (List.not_mem_nil y)
  | cons x t ih =>
    intro a y h
    rw [List.foldl_cons]
    rcases List.mem_cons.mp h with rfl | ht
    · exact le_trans (foldl_min_le t (min a y)) (min_le_right a y)
    · exact ih (min a x) y ht

lemma seriesMin_mem {α : Type} [LinearOrder α] {xs : List α} {m : α}
    (h : seriesMin xs = some m) : m ∈ xs := by
  cases xs with
  | nil => simp [seriesMin] at h
  | cons x t =>
    have hm : t.foldl min x = m := by simpa [seriesMin] using h
    rcases foldl_min_mem t x with h1 | h1
    · rw [← hm, h1]; exact List.mem_cons_self x t
    · rw [← hm]; exact List.mem_cons_of_mem x h1

lemma seriesMin_lb {α : Type} [LinearOrder α] {xs : List α} {m : α}
    (h : seriesMin xs = some m) : ∀ y ∈ xs, m ≤ y := by
  cases xs with
  | nil => intro y hy; exact absurd hy (List.not_mem_nil y)
  | cons x t =>
    have hm : t.foldl min x = m := by simpa [seriesMin] using h
    intro y hy
    rcases List.mem_cons.mp hy with rfl | ht
    · rw [← hm]; exact foldl_min_le t y
    · rw [← hm]; exact foldl_min_le_mem t x y ht

lemma seriesMin_isSome {α : Type} [LinearOrder α] {xs : List α} (h : xs ≠ []) :
    ∃ m, seriesMin xs = some m := by
  cases xs with
  | nil => exact absurd rfl h
  | cons x t => exact ⟨t.foldl min x, rfl⟩

lemma head_filter_decomp {α : Type} (p : α → Bool) :
    ∀ (l : List α) (x : α), (l.filter p).head? = some x →
      ∃ l1 l2, l = l1 ++ x :: l2 ∧ p x = true ∧ ∀ y ∈ l1, p y = false := by
  intro l
  induction l with
  | nil => intro x h; simp at h
  | cons a t ih =>
    intro x h
    by_cases hp : p a = true
    · rw [List.filter_cons, if_pos hp] at h
      have hax : a = x := by simpa using h
      subst hax
      exact ⟨[], t, rfl, hp, by intro y hy; exact absurd hy (List.not_mem_nil y)⟩
    · have hpf : p a = false := by simpa using hp
      rw [List.filter_cons, if_neg hp] at h
      obtain ⟨l1, l2, hl, hx, hall⟩ := ih x h
      refine ⟨a :: l1, l2, by rw [hl]; rfl, hx, ?_⟩
      intro y hy
      rcases List.mem_cons.mp hy with rfl | hyt
      · exact hpf
      · exact hall y hyt

/-- C3: when several rows tie for the global maximum `Total`, the reported
record is the first tied row in original order, and the reported peak hour
is the mode of hour-of-day over exactly the tied rows, smallest hour first
on a tie of mode counts. -/
theorem tied_max_first_and_mode (l : List Row) (m : ℚ)
    (hm : maxTotal l = some m) (htwo : 2 ≤ (tiedRows l).length) :
    (∀ r ∈ l, r.total ≤ m) ∧
    (∃ l1 r l2, l = l1 ++ r :: l2 ∧ r.total = m ∧ (∀ q ∈ l1, q.total ≠ m) ∧
      max_datetime l = some r.dateTime) ∧
    (∃ h, peak_hour_freq l = some h ∧ h ∈ tiedHours l ∧
      (∀ a ∈ tiedHours l, (tiedHours l).count a ≤ (tiedHours l).count h) ∧
      (∀ a ∈ tiedHours l, (tiedHours l).count a = (tiedHours l).count h → h ≤ a)) := by
  have htr : tiedRows l = l.filter (fun r => decide (r.total = m)) := by
    rw [tiedRows, hm]
  refine ⟨?_, ?_, ?_⟩
  · intro r hr
    exact seriesMax_ub hm r.total (List.mem_map_of_mem Row.total hr)
  · obtain ⟨r0, hr0⟩ : ∃ r0, (tiedRows l).head? = some r0 := by
      cases hcase : tiedRows l with
      | nil => rw [hcase] at htwo; simp at htwo
      | cons a t => exact ⟨a, by simp [hcase]⟩
    obtain ⟨l1, l2, hl, hp, hall⟩ := head_filter_decomp _ l r0 (htr ▸ hr0)
    refine ⟨l1, r0, l2, hl, of_decide_eq_true hp, ?_, ?_⟩
    · intro q hq
      simpa using hall q hq
    · rw [max_datetime, List.head?_map, hr0]
      rfl
  · have hlen2 : 2 ≤ (tiedHours l).length := by
      rw [tiedHours, List.length_map]; exact htwo
    have hs_ne : tiedHours l ≠ [] := by
      intro hnil; rw [hnil] at hlen2; simp at hlen2
    have hcounts_ne : (tiedHours l).map (fun x => (tiedHours l).count x) ≠ [] := by
      intro hnil
      exact hs_ne (List.map_eq_nil_iff.mp hnil)
    obtain ⟨c, hc⟩ := seriesMax_isSome hcounts_ne
    obtain ⟨x0, hx0, hx0c⟩ := List.mem_map.mp (seriesMax_mem hc)
    have hub : ∀ a ∈ tiedHours l, (tiedHours l).count a ≤ c := fun a ha =>
      seriesMax_ub hc _ (List.mem_map_of_mem _ ha)
    have hx0f : x0 ∈ (tiedHours l).filter (fun x => decide ((tiedHours l).count x = c)) :=
      List.mem_filter.mpr ⟨hx0, by simp [hx0c]⟩
    have hfilt_ne : (tiedHours l).filter (fun x => decide ((tiedHours l).count x = c)) ≠ [] := by
      intro hnil; rw [hnil] at hx0f; exact absurd hx0f (List.not_mem_nil x0)
    obtain ⟨h0, hh0⟩ := seriesMin_isSome hfilt_ne
    have hh0' := List.mem_filter.mp (seriesMin_mem hh0)
    have hh0c : (tiedHours l).count h0 = c := of_decide_eq_true hh0'.2
    refine ⟨h0, ?_, hh0'.1, fun a ha => hh0c ▸ hub a ha, ?_⟩
    · rw [peak_hour_freq, seriesMode, hc]
      exact hh0
    · intro a ha hac
      exact seriesMin_lb hh0 a (List.mem_filter.mpr ⟨ha, by simp [hac, hh0c]⟩)

/-- Witness for C3 on a dataset whose maximal `Total` 80 occurs twice. -/
theorem tied_max_first_and_mode_witness :
    (maxTotal tieSample = some 80 ∧ 2 ≤ (tiedRows tieSample).length) ∧
      ((∀ r ∈ tieSample, r.total ≤ 80) ∧
      (∃ l1 r l2, tieSample = l1 ++ r :: l2 ∧ r.total = 80 ∧
        (∀ q ∈ l1, q.total ≠ 80) ∧ max_datetime tieSample = some r.dateTime) ∧
      (∃ h, peak_hour_freq tieSample = some h ∧ h ∈ tiedHours tieSample ∧
        (∀ a ∈ tiedHours tieSample,
          (tiedHours tieSample).count a ≤ (tiedHours tieSample).count h) ∧
        (∀ a ∈ tiedHours tieSample,
          (tiedHours tieSample).count a = (tiedHours tieSample).count h → h ≤ a))) :=
  ⟨⟨by decide, by decide⟩,
    tied_max_first_and_mode tieSample 80 (by decide) (by decide)⟩

/- ===================== Empty-filter behaviour (C1) ======================= -/

/-- A filter selection whose year multiselect has been emptied; it matches
no row of the sample dataset. -/
def emptySelection : FilterSelection := ⟨[], ["01", "02"], 1, 31⟩

/-- C1 evidence: on an empty Filtered Dataset the sum is 0 and the mean is
NaN (`none`), but every extremal lookup of the Summary Insights section —
`idxmax`/`idxmin` over the per-year, per-month and per-hour group sums
(lines 169-189), `iloc[0]` on the max-total selection (line 194) and
`mode()[0]` over the tied rows (line 220) — hits the exceptional case
modelled by `none`: in the Python code these raise `ValueError`,
`IndexError` and `KeyError` respectively instead of producing the
defined no-data value the specification requires. -/
theorem empty_filter_summary_raises :
    filterData emptySelection tieSample = [] ∧
    sumTotal (filterData emptySelection tieSample) = 0 ∧
    meanTotal (filterData emptySelection tieSample) = none ∧
    idxmax (groupSum Row.year (filterData emptySelection tieSample)) = none ∧
    idxmin (groupSum Row.year (filterData emptySelection tieSample)) = none ∧
    idxmax (groupSum Row.month (filterData emptySelection tieSample)) = none ∧
    idxmin (groupSum Row.month (filterData emptySelection tieSample)) = none ∧
    idxmax (groupSum Row.hour (filterData emptySelection tieSample)) = none ∧
    idxmin (groupSum Row.hour (filterData emptySelection tieSample)) = none ∧
    max_datetime (filterData emptySelection tieSample) = none ∧
    peak_hour_freq (filterData emptySelection tieSample) = none := by
  decide

/- ===================== Display formatting (C7) =========================== -/

/-- A one-row filtered dataset whose `Total` sum is 5000. -/
def c7Row : Row := ⟨"2021", "01", 10, 1, 7, 5000, 0, 0, 0⟩

def c7Sample : List Row := [c7Row]

lemma sumTotal_c7 : sumTotal c7Sample = 5000 := by
  simp [sumTotal, c7Sample, c7Row]

lemma meanTotal_c7 : meanTotal c7Sample = some 5000 := by
  rw [meanTotal, if_neg (by decide)]
  rw [sumTotal_c7]
  norm_num [c7Sample]

/-- C7 counterexample: the overall Total-Energy metric (line 67) is rendered
with the comma-grouped `,.2f` format, not with `format_number`: at a
filtered sum of 5000 the display reads "5,000.00" where `format_number`
yields "5.00K". -/
theorem total_energy_not_format_number :
    totalEnergyDisplay c7Sample ≠ format_number (sumTotal c7Sample) ∧
    totalEnergyDisplay c7Sample = "5,000.00" ∧
    format_number (sumTotal c7Sample) = "5.00K" := by
  have h1 : totalEnergyDisplay c7Sample = "5,000.00" := by
    rw [totalEnergyDisplay, sumTotal_c7, formatComma2_at_5000]
  have h2 : format_number (sumTotal c7Sample) = "5.00K" := by
    rw [sumTotal_c7, format_number_at_5000]
  exact ⟨by rw [h1, h2]; decide, h1, h2⟩

/-- C7 amended: the average-per-interval metric (line 68) and the other
insight magnitudes go through `format_number`, but the overall Total-Energy
metric (line 67) uses the comma-grouped two-decimal format instead; the two
conventions visibly differ at the value 5000. -/
theorem display_formatting_amended :
    (∀ l : List Row, l ≠ [] →
      avgEnergyDisplay l = format_number (sumTotal l / (l.length : ℚ))) ∧
    (∀ l : List Row, totalEnergyDisplay l = formatComma2 (sumTotal l)) ∧
    avgEnergyDisplay c7Sample = "5.00K" ∧
    totalEnergyDisplay c7Sample = "5,000.00" := by
  refine ⟨?_, fun l => rfl, ?_, ?_⟩
  · intro l hl
    cases l with
    | nil => exact absurd rfl hl
    | cons a t => rfl
  · rw [avgEnergyDisplay, meanTotal_c7]
    exact format_number_at_5000
  · rw [totalEnergyDisplay, sumTotal_c7, formatComma2_at_5000]

/-- Witness for the amended C7 on the one-row dataset. -/
theorem display_formatting_amended_witness :
    c7Sample ≠ [] ∧
      avgEnergyDisplay c7Sample =
        format_number (sumTotal c7Sample / (c7Sample.length : ℚ)) :=
  ⟨by decide, display_formatting_amended.1 c7Sample (by decide)⟩

/- ===================== Dataset Assembler (combined_dataset.py) =========== -/

/-- One row of an input CSV file (the five required columns). -/
structure RawRow where
  dateTime : Nat
  total : ℚ
  rateA : ℚ
  rateB : ℚ
  rateC : ℚ
deriving DecidableEq

/-- A raw row tagged with the derived `Year` and `Month` columns
(lines 22-23 of `combined_dataset.py`). -/
structure TaggedRow where
  row : RawRow
  year : String
  month : String
deriving DecidableEq

/-- A directory entry of the root folder: a year subdirectory with its file
listing, or a plain file (skipped by the `isdir` check).  Each listed file
carries its parse outcome: `Except.ok` rows, or `Except.error` with the
exception text `pd.read_csv` raised. -/
inductive Entry where
  | dir (year : String) (files : List (String × Except String (List RawRow)))
  | file (name : String)

/-- The hard-coded input root of `combined_dataset.py` line 5. -/
def preprocessed_data_dir : String := "../preprocessingdata"

/-- `os.path.join(preprocessed_data_dir, year, fname)`. -/
def srcPath (year fname : String) : String :=
  preprocessed_data_dir ++ "/" ++ year ++ "/" ++ fname

/-- The diagnostic printed on a per-file parse failure (line 28). -/
def readErrorMsg (path err : String) : String :=
  "Error reading file " ++ path ++ ": " ++ err

/-- Python `file.endswith(".csv")` (line 15), checked over the characters
of the file name. -/
def isCsvName (fname : String) : Bool := ".csv".data.isSuffixOf fname.data

/-- Lines 22-23: append the `Year` and `Month` columns to a row. -/
def tagRow (year month : String) (r : RawRow) : TaggedRow := ⟨r, year, month⟩

/-- The `data_frames` list and the printed diagnostics accumulated by the
assembly loop. -/
structure AssembleResult where
  dataFrames : List (List TaggedRow)
  diagnostics : List String
deriving DecidableEq

/-- The inner loop of `combined_dataset.py` lines 14-28 over one year
directory: process `.csv`-named entries, tagging parsed rows with the year
and the first two characters of the file name, and turning a parse failure
into a diagnostic. -/
def processFiles (year : String) :
    List (String × Except String (List RawRow)) → AssembleResult
  | [] => ⟨[], []⟩
  | (fname, res) :: rest =>
    if isCsvName fname then
      match res with
      | Except.ok df =>
        ⟨df.map (tagRow year (fname.take 2)) :: (processFiles year rest).dataFrames,
         (processFiles year rest).diagnostics⟩
      | Except.error e =>
        ⟨(processFiles year rest).dataFrames,
         readErrorMsg (srcPath year fname) e :: (processFiles year rest).diagnostics⟩
    else processFiles year rest

/-- The outer loop of lines 11-28: non-directory root entries are skipped. -/
def assembleEntries : List Entry → AssembleResult
  | [] => ⟨[], []⟩
  | Entry.file _ :: rest => assembleEntries rest
  | Entry.dir year files :: rest =>
    ⟨(processFiles year files).dataFrames ++ (assembleEntries rest).dataFrames,
     (processFiles year files).diagnostics ++ (assembleEntries rest).diagnostics⟩

/-- Lines 31-40: concatenate and write the combined file only when at least
one data frame was collected; `none` models the no-output branch. -/
def combinedOutput (root : List Entry) : Option (List TaggedRow) :=
  if (assembleEntries root).dataFrames.isEmpty then none
  else some (assembleEntries root).dataFrames.flatten

/-- The final console message of lines 33-40. -/
def assemblerMessage (root : List Entry) : String :=
  if (assembleEntries root).dataFrames.isEmpty then
    "No data found in preprocessingdata folder."
  else "Dataset created successfully!"

/-- Specification-side description of the successfully parsed candidate
files of one directory: `(year, file name, parsed rows)` in listing order. -/
def specValidOfFiles (year : String) :
    List (String × Except String (List RawRow)) → List (String × String × List RawRow)
  | [] => []
  | (fname, res) :: rest =>
    if isCsvName fname then
      match res with
      | Except.ok df => (year, fname, df) :: specValidOfFiles year rest
      | Except.error _ => specValidOfFiles year rest
    else specValidOfFiles year rest

/-- Specification-side description of the failing candidate files of one
directory: `(path, failure reason)` in listing order. -/
def specFailedOfFiles (year : String) :
    List (String × Except String (List RawRow)) → List (String × String)
  | [] => []
  | (fname, res) :: rest =>
    if isCsvName fname then
      match res with
      | Except.ok _ => specFailedOfFiles year rest
      | Except.error e => (srcPath year fname, e) :: specFailedOfFiles year rest
    else specFailedOfFiles year rest

/-- All successfully parsed candidate files of the input tree. -/
def specValidFiles : List Entry → List (String × String × List RawRow)
  | [] => []
  | Entry.file _ :: rest => specValidFiles rest
  | Entry.dir year files :: rest => specValidOfFiles year files ++ specValidFiles rest

/-- All failing candidate files of the input tree. -/
def specFailedFiles : List Entry → List (String × String)
  | [] => []
  | Entry.file _ :: rest => specFailedFiles rest
  | Entry.dir year files :: rest => specFailedOfFiles year files ++ specFailedFiles rest

/-- The number of successfully parsed candidate files. -/
def countSuccess (root : List Entry) : Nat := (specValidFiles root).length

lemma list_isEmpty_false {α : Type} {l : List α} (h : l ≠ []) : l.isEmpty = false := by
  cases l with
  | nil => exact absurd rfl h
  | cons a t => rfl

lemma processFiles_spec (year : String) :
    ∀ files, (processFiles year files).dataFrames =
        (specValidOfFiles year files).map
          (fun v => v.2.2.map (tagRow v.1 (v.2.1.take 2))) ∧
      (processFiles year files).diagnostics =
        (specFailedOfFiles year files).map (fun p => readErrorMsg p.1 p.2) := by
  intro files
  induction files with
  | nil => exact ⟨rfl, rfl⟩
  | cons f rest ih =>
    obtain ⟨fname, res⟩ := f
    by_cases hcsv : isCsvName fname = true
    · cases res with
      | ok df =>
        simp [processFiles, specValidOfFiles, specFailedOfFiles, hcsv, ih.1, ih.2]
      | error e =>
        simp [processFiles, specValidOfFiles, specFailedOfFiles, hcsv, ih.1, ih.2]
    · simp [processFiles, specValidOfFiles, specFailedOfFiles, hcsv, ih.1, ih.2]

lemma assemble_spec :
    ∀ root, (assembleEntries root).dataFrames =
        (specValidFiles root).map (fun v => v.2.2.map (tagRow v.1 (v.2.1.take 2))) ∧
      (assembleEntries root).diagnostics =
        (specFailedFiles root).map (fun p => readErrorMsg p.1 p.2) := by
  intro root
  induction root with
  | nil => exact ⟨rfl, rfl⟩
  | cons e rest ih =>
    cases e with
    | file n =>
      simpa [assembleEntries, specValidFiles, specFailedFiles] using ih
    | dir year files =>
      simp [assembleEntries, specValidFiles, specFailedFiles,
        (processFiles_spec year files).1, (processFiles_spec year files).2,
        ih.1, ih.2]

/-- C8: the assembler writes no output file and reports the no-data message
exactly when zero candidate files parsed successfully; with at least one
parsed file it writes the concatenated output. -/
theorem assembler_output_iff_success (root : List Entry) :
    (countSuccess root = 0 →
      combinedOutput root = none ∧
        assemblerMessage root = "No data found in preprocessingdata folder.") ∧
    (0 < countSuccess root →
      (∃ rows, combinedOutput root = some rows) ∧
        assemblerMessage root = "Dataset created successfully!") := by
  have hdf := (assemble_spec root).1
  have hlen : (assembleEntries root).dataFrames.length = countSuccess root := by
    rw [hdf, List.length_map, countSuccess]
  constructor
  · intro h0
    have hnil : (assembleEntries root).dataFrames = [] :=
      List.eq_nil_of_length_eq_zero (by rw [hlen]; exact h0)
    constructor
    · rw [combinedOutput, hnil]
      rfl
    · rw [assemblerMessage, hnil]
      rfl
  · intro hpos
    have hne : (assembleEntries root).dataFrames ≠ [] := by
      intro h
      rw [h] at hlen
      simp at hlen
      omega
    have hie : (assembleEntries root).dataFrames.isEmpty = false := list_isEmpty_false hne
    constructor
    · exact ⟨(assembleEntries root).dataFrames.flatten,
        by rw [combinedOutput, if_neg (by rw [hie]; exact Bool.false_ne_true)]⟩
    · rw [assemblerMessage, if_neg (by rw [hie]; exact Bool.false_ne_true)]

/-- C9: per-file failure tolerance and row accounting of the assembler: the
diagnostics are exactly one rendered message per failing candidate file; the
collected data frames are exactly the parsed files' rows in traversal order,
each row tagged with the year-directory name and the first two characters of
the file name; and the combined row count is the sum of the parsed files'
row counts. -/
theorem assembler_combined_rows (root : List Entry) :
    (assembleEntries root).diagnostics =
      (specFailedFiles root).map (fun p => readErrorMsg p.1 p.2) ∧
    (assembleEntries root).dataFrames =
      (specValidFiles root).map (fun v => v.2.2.map (tagRow v.1 (v.2.1.take 2))) ∧
    ((assembleEntries root).dataFrames.flatten).length =
      ((specValidFiles root).map (fun v => v.2.2.length)).sum ∧
    ∀ tr ∈ (assembleEntries root).dataFrames.flatten,
      ∃ v ∈ specValidFiles root,
        tr.year = v.1 ∧ tr.month = v.2.1.take 2 ∧ tr.row ∈ v.2.2 := by
  obtain ⟨hdf, hdg⟩ := assemble_spec root
  refine ⟨hdg, hdf, ?_, ?_⟩
  · rw [hdf, List.length_flatten, List.map_map]
    congr 1
    apply List.map_congr_left
    intro v _
    simp [Function.comp]
  · intro tr htr
    rw [hdf] at htr
    obtain ⟨df, hdf2, htr2⟩ := List.mem_flatten.mp htr
    obtain ⟨v, hv, rfl⟩ := List.mem_map.mp hdf2
    obtain ⟨r, hr, rfl⟩ := List.mem_map.mp htr2
    exact ⟨v, hv, rfl, rfl, hr⟩

/-- Sample input trees: two parsed files totalling three rows, one failing
file, one non-CSV file, one stray non-directory root entry; and an
all-invalid tree. -/
def demoRoot : List Entry :=
  [Entry.dir "2021"
      [("01_consumption.csv", Except.ok [⟨1, 100, 1, 2, 3⟩, ⟨2, 200, 4, 5, 6⟩]),
       ("02_consumption.csv", Except.error "ParserError"),
       ("readme.txt", Except.error "not a csv")],
   Entry.file "stray.csv",
   Entry.dir "2022" [("01_consumption.csv", Except.ok [⟨3, 300, 7, 8, 9⟩])]]

def demoBadRoot : List Entry :=
  [Entry.dir "2021" [("01_consumption.csv", Except.error "ParserError")],
   Entry.file "notes.txt"]

/-- Witness for C8 on both sample trees. -/
theorem assembler_output_iff_success_witness :
    (countSuccess demoBadRoot = 0 ∧ combinedOutput demoBadRoot = none) ∧
    (0 < countSuccess demoRoot ∧ ∃ rows, combinedOutput demoRoot = some rows) :=
  ⟨⟨by decide, ((assembler_output_iff_success demoBadRoot).1 (by decide)).1⟩,
   ⟨by decide, ((assembler_output_iff_success demoRoot).2 (by decide)).1⟩⟩

/-- Witness for C9 on the sample tree: one diagnostic naming the failing
file and its reason, three combined rows. -/
theorem assembler_combined_rows_witness :
    (assembleEntries demoRoot).diagnostics =
      ["Error reading file ../preprocessingdata/2021/02_consumption.csv: ParserError"] ∧
    ((assembleEntries demoRoot).dataFrames.flatten).length = 3 := by
  have h := assembler_combined_rows demoRoot
  exact ⟨by rw [h.1]; decide, by rw [h.2.2.1]; decide⟩
